import Mathlib

/-!
Verification of the ohme_client repository against its specification.

The development shallowly embeds the Python modules src/ohme/parser.py,
src/ohme/api.py, src/ohme/firebase.py and the response contract of
src/ohme/make_requests.py.  Python values that flow through the client
(parsed JSON payloads, dictionaries, tokens) are embedded as the inductive
type PyVal; Python dictionaries are association lists; Python exceptions are
embedded as the type PyExc, keeping the exception class, the message and the
explicit cause chain (raise ... from e).  Functions that can raise return
Except PyExc; functions that additionally call logging.error are paired with
a companion definition that returns the emitted log lines.  All definitions
are computable and evaluate by rfl.
-/

/-- Embedding of the Python values handled by the client: None, booleans,
integers, strings, lists and string-keyed dictionaries. -/
inductive PyVal where
  | none : PyVal
  | bool (b : Bool) : PyVal
  | int (n : Int) : PyVal
  | str (s : String) : PyVal
  | list (xs : List PyVal) : PyVal
  | dict (fs : List (String × PyVal)) : PyVal

/-- A Python dictionary with string keys, as an association list. -/
abbrev Record := List (String × PyVal)

/-- Lookup of a key in a string-keyed association list (first occurrence). -/
def lookupKey {α : Type} : List (String × α) → String → Option α
  | [], _ => Option.none
  | (k, v) :: rest, key => if k = key then Option.some v else lookupKey rest key

/-- Embedding of dict.get(key): Python returns None when the key is absent,
which coincides with a stored JSON null. -/
def dictGet (fs : Record) (key : String) : PyVal :=
  (lookupKey fs key).getD PyVal.none

/-- Embedding of the Python membership test key in dict. -/
def hasKey (fs : Record) (key : String) : Bool :=
  (lookupKey fs key).isSome

/-- Python truthiness of a value, as used by bare if conditions. -/
def truthy : PyVal → Bool
  | PyVal.none => false
  | PyVal.bool b => b
  | PyVal.int n => n != 0
  | PyVal.str s => !s.isEmpty
  | PyVal.list xs => !xs.isEmpty
  | PyVal.dict fs => !fs.isEmpty

/-- Name of the Python type of a value, as printed by error messages. -/
def pyTypeName : PyVal → String
  | PyVal.none => "NoneType"
  | PyVal.bool _ => "bool"
  | PyVal.int _ => "int"
  | PyVal.str _ => "str"
  | PyVal.list _ => "list"
  | PyVal.dict _ => "dict"

/-- Embedding of the Python len() builtin: defined for strings, lists and
dictionaries, a TypeError (modelled as Option.none) for every other value. -/
def pyLen : PyVal → Option Nat
  | PyVal.str s => Option.some s.length
  | PyVal.list xs => Option.some xs.length
  | PyVal.dict fs => Option.some fs.length
  | _ => Option.none

/-- Comma-space separated concatenation, as in Python collection reprs. -/
def joinComma (parts : List String) : String :=
  String.intercalate ", " parts

mutual
/-- Embedding of the Python repr() of a value, used when values are
interpolated into error and log messages. -/
def pyRepr : PyVal → String
  | PyVal.none => "None"
  | PyVal.bool true => "True"
  | PyVal.bool false => "False"
  | PyVal.int n => toString n
  | PyVal.str s => "\x27" ++ s ++ "\x27"
  | PyVal.list xs => "[" ++ joinComma (pyReprList xs) ++ "]"
  | PyVal.dict fs => "\x7b" ++ joinComma (pyReprFields fs) ++ "\x7d"

/-- Reprs of the elements of a Python list. -/
def pyReprList : List PyVal → List String
  | [] => []
  | x :: xs => pyRepr x :: pyReprList xs

/-- Reprs of the key-value pairs of a Python dictionary. -/
def pyReprFields : List (String × PyVal) → List String
  | [] => []
  | (k, v) :: fs => ("\x27" ++ k ++ "\x27: " ++ pyRepr v) :: pyReprFields fs
end

/-- Embedding of the Python str() conversion used by f-strings: strings are
interpolated verbatim, every other value by its repr. -/
def pyStr (v : PyVal) : String :=
  match v with
  | PyVal.str s => s
  | other => pyRepr other

/-- Exception classes raised by the embedded code: TypeError, KeyError,
ValueError, jsonschema.ValidationError, AttributeError, SendRequestError
(make_requests.py), httpx.HTTPError, and plain Exception. -/
inductive ExcKind where
  | typeError : ExcKind
  | keyError : ExcKind
  | valueError : ExcKind
  | validationError : ExcKind
  | attributeError : ExcKind
  | sendRequestError : ExcKind
  | httpError : ExcKind
  | generic : ExcKind
  deriving DecidableEq

/-- Embedding of a raised Python exception: its class, its message, and (for
raise ... from e) the exception recorded as its cause. -/
inductive PyExc where
  | simple (kind : ExcKind) (msg : String) : PyExc
  | chained (kind : ExcKind) (msg : String) (cause : PyExc) : PyExc

/-- Class of an exception. -/
def PyExc.kind : PyExc → ExcKind
  | PyExc.simple k _ => k
  | PyExc.chained k _ _ => k

/-- Message of an exception. -/
def PyExc.msg : PyExc → String
  | PyExc.simple _ m => m
  | PyExc.chained _ m _ => m

/-- Cause of an exception, when one was chained with raise ... from e. -/
def PyExc.cause : PyExc → Option PyExc
  | PyExc.simple _ _ => Option.none
  | PyExc.chained _ _ c => Option.some c

/-- Primitive type keywords appearing in the property schemas this
repository uses. -/
inductive JPrim where
  | stringTy : JPrim
  | numberTy : JPrim

/-- A draft-07 object schema of the shape used by the repository: a
properties map of primitive-typed fields plus a required list. -/
structure JObjSchema where
  properties : List (String × JPrim)
  required : List String

/-- A draft-07 array schema whose items are object schemas, the shape
produced by get_ohme_minimum_schema. -/
structure JArrSchema where
  items : JObjSchema

/-- Violation message produced by jsonschema for a type keyword failure. -/
def typeMismatch (v : PyVal) (tyName : String) : String :=
  pyRepr v ++ " is not of type \x27" ++ tyName ++ "\x27"

/-- Validation of one primitive type keyword. -/
def validatePrim : JPrim → PyVal → Except String Unit
  | JPrim.stringTy, PyVal.str _ => Except.ok ()
  | JPrim.stringTy, v => Except.error (typeMismatch v "string")
  | JPrim.numberTy, PyVal.int _ => Except.ok ()
  | JPrim.numberTy, v => Except.error (typeMismatch v "number")

/-- Validation of the properties keyword: each schema property present in the
instance must satisfy its property schema; absent properties are skipped. -/
def validateProperties (props : List (String × JPrim)) (fs : Record) :
    Except String Unit :=
  match props with
  | [] => Except.ok ()
  | (k, p) :: rest =>
    match lookupKey fs k with
    | Option.some v =>
      match validatePrim p v with
      | Except.ok _ => validateProperties rest fs
      | Except.error e => Except.error e
    | Option.none => validateProperties rest fs

/-- Validation of the required keyword: every listed key must be present. -/
def checkRequired (req : List String) (fs : Record) : Except String Unit :=
  match req with
  | [] => Except.ok ()
  | k :: rest =>
    if hasKey fs k then checkRequired rest fs
    else Except.error ("\x27" ++ k ++ "\x27 is a required property")

/-- Validation of one object schema against one instance value. -/
def validateObject (s : JObjSchema) (v : PyVal) : Except String Unit :=
  match v with
  | PyVal.dict fs =>
    match validateProperties s.properties fs with
    | Except.ok _ => checkRequired s.required fs
    | Except.error e => Except.error e
  | _ => Except.error (typeMismatch v "object")

/-- Validation of every element of an array against the items schema,
reporting the first violation. -/
def validateItems (s : JObjSchema) : List PyVal → Except String Unit
  | [] => Except.ok ()
  | x :: rest =>
    match validateObject s x with
    | Except.ok _ => validateItems s rest
    | Except.error e => Except.error e

/-- Embedding of jsonschema.validate for the array-of-records schemas this
repository uses: the instance must be an array and every element must satisfy
the items schema; on violation the detail message of the first failure is
reported, with the message formats of the jsonschema library. -/
def jsonschemaValidate (s : JArrSchema) (v : PyVal) : Except String Unit :=
  match v with
  | PyVal.list xs => validateItems s.items xs
  | _ => Except.error (typeMismatch v "array")

/-- Modelled from the spec: the file ohme_minimum_schema.json is not part of
the provided sources (only the loaders in parser.py/api.py and the tests
reference it).  Per the spec, the Minimum Schema describes one charge-session
record with at minimum a required, string-typed mode field. -/
def ohme_object_schema : JObjSchema :=
  { properties := [("mode", JPrim.stringTy)], required := ["mode"] }

/-- Embedding of get_ohme_minimum_schema (parser.py and api.py): wraps the
loaded object schema into an array-of-objects schema. -/
def get_ohme_minimum_schema : JArrSchema :=
  { items := ohme_object_schema }

namespace parser

/-- Embedding of parser.validate_against_schema: validates the object against
the schema; on violation logs the message Schema validation failed with the
detail and re-raises the ValidationError; on success returns the input object
unchanged.  The first component is the returned value or raised exception,
the second the lines passed to logging.error. -/
def validate_against_schema (array_schema : JArrSchema)
    (object_to_validate : PyVal) : Except PyExc PyVal × List String :=
  match jsonschemaValidate array_schema object_to_validate with
  | Except.ok _ => (Except.ok object_to_validate, [])
  | Except.error e =>
    (Except.error (PyExc.simple ExcKind.validationError e),
     ["Schema validation failed: " ++ e])

/-- The closed list of known session modes in is_charging_session_active. -/
def known_modes : List String :=
  ["DISCONNECTED", "RETRIEVING_SOC", "CALCULATING", "SMART_CHARGE"]

/-- Embedding of the Python test mode in known_modes, where mode is the
result of obj.get: a non-string value never equals any known mode string. -/
def mode_is_known (mode : PyVal) : Bool :=
  match mode with
  | PyVal.str s => known_modes.contains s
  | _ => false

/-- Embedding of the Python comparison value != some string literal: only an
equal string compares equal, every other value is unequal. -/
def pyNeStr (v : PyVal) (s : String) : Bool :=
  match v with
  | PyVal.str t => t != s
  | _ => true

/-- Embedding of the return value of parser.is_charging_session_active: true
iff some session dictionary has a mode entry different from DISCONNECTED
(an absent mode reads as None, which is different). -/
def is_charging_session_active (charge_sessions : List Record) : Bool :=
  charge_sessions.any fun obj => pyNeStr (dictGet obj "mode") "DISCONNECTED"

/-- Embedding of the logging.error calls performed by the loop inside
parser.is_charging_session_active: one Unknown mode line per session whose
mode is outside known_modes.  The function itself never raises; its only
other effect is the returned boolean. -/
def unknown_mode_log_events (charge_sessions : List Record) : List String :=
  charge_sessions.filterMap fun obj =>
    let mode := dictGet obj "mode"
    if mode_is_known mode then Option.none
    else Option.some ("Unknown mode " ++ pyStr mode ++
      " found in chargeStatus: " ++ pyRepr (PyVal.dict obj))

end parser

namespace api

/-- The fixed header set returned by api.create_headers on a valid token. -/
def ohme_headers (firebase_token : String) : List (String × String) :=
  [("Connection", "keep-alive"),
   ("Accept", "*/*"),
   ("User-Agent", "OhmE/543 CFNetwork/1474 Darwin/23.0.0"),
   ("Accept-Language", "en-GB,en;q=0.9"),
   ("Accept-Encoding", "gzip, deflate, br"),
   ("Authorization", "Firebase " ++ firebase_token)]

/-- Embedding of api.create_headers: raises TypeError unless the argument is
a non-empty string, otherwise returns the fixed header dictionary.  For
arguments without a len() the error message interpolation itself raises the
TypeError of len(), still a TypeError for the caller. -/
def create_headers (firebase_token : PyVal) :
    Except PyExc (List (String × String)) :=
  match firebase_token with
  | PyVal.str s =>
    if s.length = 0 then
      Except.error (PyExc.simple ExcKind.typeError
        "firebase_token must be a string with length > 0, not <class \x27str\x27> with length 0")
    else Except.ok (ohme_headers s)
  | v =>
    match pyLen v with
    | Option.some n =>
      Except.error (PyExc.simple ExcKind.typeError
        ("firebase_token must be a string with length > 0, not <class \x27" ++
          pyTypeName v ++ "\x27> with length " ++ toString n))
    | Option.none =>
      Except.error (PyExc.simple ExcKind.typeError
        ("object of type \x27" ++ pyTypeName v ++ "\x27 has no len()"))

/-- Embedding of the first "://" occurrence in a scheme-qualified URL: the
characters before it and after it, or Option.none when it never occurs. -/
def splitOnSchemeSep : List Char → Option (List Char × List Char)
  | [] => Option.none
  | ':' :: '/' :: '/' :: rest => Option.some ([], rest)
  | c :: rest =>
    match splitOnSchemeSep rest with
    | Option.some (pre, post) => Option.some (c :: pre, post)
    | Option.none => Option.none

/-- Embedding of urllib.parse.urljoin restricted to the only case this
repository exercises: the second argument is a rooted path, so the result
keeps the scheme and network location of the base and replaces its path;
a base without a scheme contributes nothing. -/
def urljoin (base url : String) : String :=
  match splitOnSchemeSep base.data with
  | Option.some (scheme, after) =>
    String.mk scheme ++ "://" ++ String.mk (after.takeWhile (fun c => c != '/')) ++ url
  | Option.none => url

/-- Embedding of api.get_ohme_url, with the process environment passed
explicitly: raises KeyError when ohme_api_base is unset, ValueError when it
is empty (the ValueError escapes the try block, whose except clause only
catches KeyError), and otherwise joins the base with /v1/chargeSessions. -/
def get_ohme_url (env : List (String × String)) : Except PyExc String :=
  match lookupKey env "ohme_api_base" with
  | Option.none =>
    Except.error (PyExc.simple ExcKind.keyError "ohme_api_base not set in environment")
  | Option.some ohme_base_url =>
    if ohme_base_url.isEmpty then
      Except.error (PyExc.simple ExcKind.valueError "ohme_api_base is empty")
    else Except.ok (urljoin ohme_base_url "/v1/chargeSessions")

/-- Embedding of api.validate_against_schema: raises the plain Exception
No json field in response to array_schema request when the response
dictionary lacks a json key, and otherwise validates response[json] exactly
as parser.validate_against_schema does, with the same logging. -/
def validate_against_schema (array_schema : JArrSchema) (response : Record) :
    Except PyExc PyVal × List String :=
  if hasKey response "json" then
    match jsonschemaValidate array_schema (dictGet response "json") with
    | Except.ok _ => (Except.ok (dictGet response "json"), [])
    | Except.error e =>
      (Except.error (PyExc.simple ExcKind.validationError e),
       ["Schema validation failed: " ++ e])
  else
    (Except.error (PyExc.simple ExcKind.generic
      "No json field in response to array_schema request"), [])

/-- Embedding of api.is_charging_session_active, a verbatim copy of the
parser.py function. -/
def is_charging_session_active (charge_sessions : List Record) : Bool :=
  charge_sessions.any fun obj => parser.pyNeStr (dictGet obj "mode") "DISCONNECTED"

/-- Embedding of the logging.error calls of api.is_charging_session_active,
a verbatim copy of the parser.py function. -/
def unknown_mode_log_events (charge_sessions : List Record) : List String :=
  charge_sessions.filterMap fun obj =>
    let mode := dictGet obj "mode"
    if parser.mode_is_known mode then Option.none
    else Option.some ("Unknown mode " ++ pyStr mode ++
      " found in chargeStatus: " ++ pyRepr (PyVal.dict obj))

end api

namespace firebase

/-- Embedding of firebase.get_firebase_token as a function of the outcome of
the send_request call: a raised transport exception arrives as Except.error,
a normalized response dictionary as Except.ok.  The body mirrors the Python
try block: a missing or null json field raises Invalid JSON; a response whose
three token fields are not all truthy raises Error getting firebase token;
both are re-wrapped by the outer except Exception clause as An unexpected
error occurred with the original exception chained as cause; an
httpx.HTTPError is wrapped as HTTP error occurred; on success the three
fields are copied unchanged into the returned dictionary. -/
def get_firebase_token (send_result : Except PyExc Record) :
    Except PyExc Record :=
  match send_result with
  | Except.error e =>
    match e.kind with
    | ExcKind.httpError =>
      Except.error (PyExc.chained ExcKind.generic
        ("HTTP error occurred while sending request: " ++ e.msg) e)
    | _ =>
      Except.error (PyExc.chained ExcKind.generic
        ("An unexpected error occurred: " ++ e.msg) e)
  | Except.ok response =>
    match dictGet response "json" with
    | PyVal.none =>
      Except.error (PyExc.chained ExcKind.generic
        ("An unexpected error occurred: " ++
          ("Error getting firebase token: Invalid JSON: " ++ pyRepr (PyVal.dict response)))
        (PyExc.simple ExcKind.generic
          ("Error getting firebase token: Invalid JSON: " ++ pyRepr (PyVal.dict response))))
    | PyVal.dict response_data =>
      if truthy (dictGet response_data "idToken") &&
         truthy (dictGet response_data "expiresIn") &&
         truthy (dictGet response_data "refreshToken") then
        Except.ok [("idToken", dictGet response_data "idToken"),
                   ("expiresIn", dictGet response_data "expiresIn"),
                   ("refreshToken", dictGet response_data "refreshToken")]
      else
        Except.error (PyExc.chained ExcKind.generic
          ("An unexpected error occurred: " ++
            ("Error getting firebase token: " ++ pyRepr (PyVal.dict response)))
          (PyExc.simple ExcKind.generic
            ("Error getting firebase token: " ++ pyRepr (PyVal.dict response))))
    | other =>
      Except.error (PyExc.chained ExcKind.generic
        ("An unexpected error occurred: " ++
          ("\x27" ++ pyTypeName other ++ "\x27 object has no attribute \x27get\x27"))
        (PyExc.simple ExcKind.attributeError
          ("\x27" ++ pyTypeName other ++ "\x27 object has no attribute \x27get\x27")))

end firebase

/-- Spec-side predicate, written from the words of the specification for
claim C9, to be compared with the implementation: all three token fields are
non-empty strings and the expiresIn field parses as an integer. -/
def token_fields_wellformed (tok : Record) : Bool :=
  match dictGet tok "idToken", dictGet tok "expiresIn", dictGet tok "refreshToken" with
  | PyVal.str a, PyVal.str b, PyVal.str c =>
    !a.isEmpty && !b.isEmpty && !c.isEmpty && b.toInt?.isSome
  | _, _, _ => false

/-- Statement-side predicate for claim C3: the record lacks a mode key or
holds a non-string mode value. -/
def record_mode_invalid (obj : Record) : Bool :=
  match lookupKey obj "mode" with
  | Option.none => true
  | Option.some (PyVal.str _) => false
  | Option.some _ => true

theorem pyNeStr_eq_true_iff (v : PyVal) (s : String) :
    parser.pyNeStr v s = true ↔ v ≠ PyVal.str s := by
  cases v <;> simp [parser.pyNeStr]

theorem is_charging_session_active_iff (charge_sessions : List Record) :
    parser.is_charging_session_active charge_sessions = true ↔
      ∃ obj ∈ charge_sessions, dictGet obj "mode" ≠ PyVal.str "DISCONNECTED" := by
  simp [parser.is_charging_session_active, List.any_eq_true, pyNeStr_eq_true_iff]

theorem unknown_mode_event_mem (charge_sessions : List Record) (obj : Record)
    (hmem : obj ∈ charge_sessions)
    (hunk : parser.mode_is_known (dictGet obj "mode") = false) :
    ("Unknown mode " ++ pyStr (dictGet obj "mode") ++ " found in chargeStatus: " ++
      pyRepr (PyVal.dict obj)) ∈ parser.unknown_mode_log_events charge_sessions := by
  simp only [parser.unknown_mode_log_events, List.mem_filterMap]
  exact ⟨obj, hmem, by simp [hunk]⟩

theorem validateObject_err_of_invalid (obj : Record)
    (h : record_mode_invalid obj = true) :
    ∃ e, validateObject ohme_object_schema (PyVal.dict obj) = Except.error e := by
  unfold record_mode_invalid at h
  unfold validateObject ohme_object_schema validateProperties
  cases hk : lookupKey obj "mode" with
  | none =>
    refine ⟨"\x27mode\x27 is a required property", ?_⟩
    simp [hk, validateProperties, checkRequired, hasKey]
  | some v =>
    cases v <;> simp [hk] at h ⊢ <;> simp [validatePrim, validateProperties]

theorem validateItems_err_of_mem (s : JObjSchema) (xs : List PyVal) (x : PyVal)
    (hmem : x ∈ xs) (he : ∃ e, validateObject s x = Except.error e) :
    ∃ e, validateItems s xs = Except.error e := by
  induction xs with
  | nil => cases hmem
  | cons y ys ih =>
    cases hy : validateObject s y with
    | error e => exact ⟨e, by simp [validateItems, hy]⟩
    | ok u =>
      cases u
      have hxy : x ∈ ys := by
        rcases List.mem_cons.mp hmem with h1 | h1
        · subst h1; rcases he with ⟨e, he⟩; rw [hy] at he; cases he
        · exact h1
      rcases ih hxy with ⟨e, hys⟩
      exact ⟨e, by simp [validateItems, hy, hys]⟩

/-- C1: for every list of charge-session records, is_charging_session_active
returns true iff some record has a mode value different from DISCONNECTED
(the empty list gives false); every record with a mode outside the known set
only emits one Unknown mode diagnostic log event, records with known modes
emit none, and the function is total, so it never raises; the api.py copy
behaves identically. -/
theorem C1_session_active_spec :
    (∀ charge_sessions : List Record,
      (parser.is_charging_session_active charge_sessions = true ↔
        ∃ obj ∈ charge_sessions, dictGet obj "mode" ≠ PyVal.str "DISCONNECTED")) ∧
    parser.is_charging_session_active [] = false ∧
    (∀ (charge_sessions : List Record) (obj : Record), obj ∈ charge_sessions →
      parser.mode_is_known (dictGet obj "mode") = false →
      ("Unknown mode " ++ pyStr (dictGet obj "mode") ++ " found in chargeStatus: " ++
        pyRepr (PyVal.dict obj)) ∈ parser.unknown_mode_log_events charge_sessions) ∧
    (∀ charge_sessions : List Record,
      (∀ obj ∈ charge_sessions, parser.mode_is_known (dictGet obj "mode") = true) →
      parser.unknown_mode_log_events charge_sessions = []) ∧
    (∀ charge_sessions : List Record,
      api.is_charging_session_active charge_sessions =
        parser.is_charging_session_active charge_sessions ∧
      api.unknown_mode_log_events charge_sessions =
        parser.unknown_mode_log_events charge_sessions) := by
  refine ⟨is_charging_session_active_iff, rfl, unknown_mode_event_mem, ?_,
    fun cs => ⟨rfl, rfl⟩⟩
  intro cs hall
  simp only [parser.unknown_mode_log_events, List.filterMap_eq_nil_iff]
  intro obj hmem
  simp [hall obj hmem]

/-- Witness for C1: a single record with the unknown mode UNKNOWN_X makes the
session count as active and emits exactly the diagnostic line. -/
theorem C1_witness :
    parser.is_charging_session_active [[("mode", PyVal.str "UNKNOWN_X")]] = true ∧
    ("Unknown mode " ++ pyStr (dictGet [("mode", PyVal.str "UNKNOWN_X")] "mode") ++
      " found in chargeStatus: " ++ pyRepr (PyVal.dict [("mode", PyVal.str "UNKNOWN_X")])) ∈
      parser.unknown_mode_log_events [[("mode", PyVal.str "UNKNOWN_X")]] :=
  ⟨(C1_session_active_spec.1 _).mpr
      ⟨[("mode", PyVal.str "UNKNOWN_X")], by simp, by simp [dictGet, lookupKey]⟩,
   C1_session_active_spec.2.2.1 _ [("mode", PyVal.str "UNKNOWN_X")] (by simp) rfl⟩

/-- C10: a record with no mode key at all counts as active (its mode reads as
None, which differs from DISCONNECTED) and also emits the unknown-mode
diagnostic with None as the printed mode. -/
theorem C10_missing_mode_counts_active :
    ∀ (charge_sessions : List Record) (obj : Record), obj ∈ charge_sessions →
      lookupKey obj "mode" = Option.none →
      parser.is_charging_session_active charge_sessions = true ∧
      ("Unknown mode " ++ pyStr PyVal.none ++ " found in chargeStatus: " ++
        pyRepr (PyVal.dict obj)) ∈ parser.unknown_mode_log_events charge_sessions := by
  intro cs obj hmem habs
  have hget : dictGet obj "mode" = PyVal.none := by simp [dictGet, habs]
  constructor
  · exact (is_charging_session_active_iff cs).mpr ⟨obj, hmem, by simp [hget]⟩
  · have h := unknown_mode_event_mem cs obj hmem (by simp [hget, parser.mode_is_known])
    rw [hget] at h
    exact h

/-- Witness for C10: the one-element list holding the empty record. -/
theorem C10_witness :
    parser.is_charging_session_active [([] : Record)] = true ∧
    ("Unknown mode " ++ pyStr PyVal.none ++ " found in chargeStatus: " ++
      pyRepr (PyVal.dict [])) ∈ parser.unknown_mode_log_events [([] : Record)] :=
  C10_missing_mode_counts_active [([] : Record)] [] (by simp) rfl

/-- C2: validation is an identity pass-through on success: any value accepted
by the minimum array-of-records schema is returned unchanged with no log
output, and in particular the singleton DISCONNECTED array is returned
verbatim. -/
theorem C2_validate_identity :
    (∀ v : PyVal, jsonschemaValidate get_ohme_minimum_schema v = Except.ok () →
      parser.validate_against_schema get_ohme_minimum_schema v = (Except.ok v, [])) ∧
    parser.validate_against_schema get_ohme_minimum_schema
        (PyVal.list [PyVal.dict [("mode", PyVal.str "DISCONNECTED")]]) =
      (Except.ok (PyVal.list [PyVal.dict [("mode", PyVal.str "DISCONNECTED")]]), []) := by
  refine ⟨?_, rfl⟩
  intro v h
  simp [parser.validate_against_schema, h]

/-- Witness for C2: the empty array validates and is returned unchanged. -/
theorem C2_witness :
    parser.validate_against_schema get_ohme_minimum_schema (PyVal.list []) =
      (Except.ok (PyVal.list []), []) :=
  C2_validate_identity.1 (PyVal.list []) rfl

/-- C3: any array in which some record lacks a mode key or holds a non-string
mode fails validation: the result is a ValidationError carrying the violation
detail, after the Schema validation failed log line; for the concrete input
with mode 123 the detail is the type-mismatch message. -/
theorem C3_validate_rejects_bad_mode :
    (∀ records : List Record, (∃ obj ∈ records, record_mode_invalid obj = true) →
      ∃ e, parser.validate_against_schema get_ohme_minimum_schema
          (PyVal.list (records.map PyVal.dict)) =
        (Except.error (PyExc.simple ExcKind.validationError e),
         ["Schema validation failed: " ++ e])) ∧
    parser.validate_against_schema get_ohme_minimum_schema
        (PyVal.list [PyVal.dict [("mode", PyVal.int 123)]]) =
      (Except.error (PyExc.simple ExcKind.validationError
          "123 is not of type \x27string\x27"),
       ["Schema validation failed: 123 is not of type \x27string\x27"]) := by
  refine ⟨?_, rfl⟩
  intro records ⟨obj, hmem, hbad⟩
  have hobj := validateObject_err_of_invalid obj hbad
  have hitems := validateItems_err_of_mem ohme_object_schema
    (records.map PyVal.dict) (PyVal.dict obj) (List.mem_map_of_mem PyVal.dict hmem) hobj
  rcases hitems with ⟨e, he⟩
  have hjv : jsonschemaValidate get_ohme_minimum_schema
      (PyVal.list (records.map PyVal.dict)) = Except.error e := he
  exact ⟨e, by simp [parser.validate_against_schema, hjv]⟩

/-- Witness for C3: the singleton array whose record maps mode to 123. -/
theorem C3_witness :
    ∃ e, parser.validate_against_schema get_ohme_minimum_schema
        (PyVal.list ([[("mode", PyVal.int 123)]].map PyVal.dict)) =
      (Except.error (PyExc.simple ExcKind.validationError e),
       ["Schema validation failed: " ++ e]) :=
  C3_validate_rejects_bad_mode.1 [[("mode", PyVal.int 123)]]
    ⟨[("mode", PyVal.int 123)], by simp, rfl⟩

/-- C4: the two historical validation call shapes agree: whenever the
response dictionary has a json key, the api.py variant returns exactly what
the parser.py variant returns on the extracted json value, raising exactly
when it raises and logging exactly what it logs. -/
theorem C4_call_shapes_equivalent :
    ∀ (array_schema : JArrSchema) (response : Record),
      hasKey response "json" = true →
      api.validate_against_schema array_schema response =
        parser.validate_against_schema array_schema (dictGet response "json") := by
  intro s r h
  simp [api.validate_against_schema, parser.validate_against_schema, h]

/-- Witness for C4: a response wrapping the empty array. -/
theorem C4_witness :
    api.validate_against_schema get_ohme_minimum_schema [("json", PyVal.list [])] =
      parser.validate_against_schema get_ohme_minimum_schema
        (dictGet [("json", PyVal.list [])] "json") :=
  C4_call_shapes_equivalent get_ohme_minimum_schema [("json", PyVal.list [])] rfl

/-- C5: the api.py validator raises the plain No json field exception exactly
when the response lacks a json key; a present-but-null json value never takes
that branch and instead fails ordinary schema validation with the
type-mismatch detail for None. -/
theorem C5_no_json_branch :
    (∀ (array_schema : JArrSchema) (response : Record),
      ((api.validate_against_schema array_schema response).1 =
        Except.error (PyExc.simple ExcKind.generic
          "No json field in response to array_schema request") ↔
        hasKey response "json" = false)) ∧
    (∀ (array_schema : JArrSchema) (response : Record),
      lookupKey response "json" = Option.some PyVal.none →
      (api.validate_against_schema array_schema response).1 =
        Except.error (PyExc.simple ExcKind.validationError
          "None is not of type \x27array\x27")) := by
  constructor
  · intro s r
    by_cases hk : hasKey r "json"
    · simp only [api.validate_against_schema, if_pos hk, hk]
      cases hv : jsonschemaValidate s (dictGet r "json") with
      | ok u => simp
      | error e => simp
    · simp [api.validate_against_schema, hk]
  · intro s r h
    have hk : hasKey r "json" = true := by simp [hasKey, h]
    have hget : dictGet r "json" = PyVal.none := by simp [dictGet, h]
    simp [api.validate_against_schema, hk, hget, jsonschemaValidate, typeMismatch, pyRepr]

/-- Witness for C5: a null json field fails schema validation while the
missing json field raises the No json field exception. -/
theorem C5_witness :
    (api.validate_against_schema get_ohme_minimum_schema [("json", PyVal.none)]).1 =
      Except.error (PyExc.simple ExcKind.validationError
        "None is not of type \x27array\x27") ∧
    (api.validate_against_schema get_ohme_minimum_schema []).1 =
      Except.error (PyExc.simple ExcKind.generic
        "No json field in response to array_schema request") :=
  ⟨C5_no_json_branch.2 get_ohme_minimum_schema [("json", PyVal.none)] rfl,
   (C5_no_json_branch.1 get_ohme_minimum_schema []).mpr rfl⟩

/-- C6: for every non-empty string token create_headers returns exactly the
fixed six-entry header map whose Authorization value is the prefix Firebase
followed by the token; every other input raises a TypeError. -/
theorem C6_create_headers_spec :
    (∀ s : String, s ≠ "" →
      api.create_headers (PyVal.str s) = Except.ok
        [("Connection", "keep-alive"),
         ("Accept", "*/*"),
         ("User-Agent", "OhmE/543 CFNetwork/1474 Darwin/23.0.0"),
         ("Accept-Language", "en-GB,en;q=0.9"),
         ("Accept-Encoding", "gzip, deflate, br"),
         ("Authorization", "Firebase " ++ s)]) ∧
    (∀ v : PyVal, (∀ s : String, v = PyVal.str s → s = "") →
      ∃ m, api.create_headers v = Except.error (PyExc.simple ExcKind.typeError m)) := by
  constructor
  · intro s hs
    have hlen : ¬ s.length = 0 := by
      intro h0
      exact hs (by cases s with | mk l => simp [String.length] at h0; simp [h0])
    simp [api.create_headers, hlen, api.ohme_headers]
  · intro v hv
    cases v with
    | str s =>
      have hempty : s = "" := hv s rfl
      subst hempty
      exact ⟨_, rfl⟩
    | none => exact ⟨_, rfl⟩
    | bool b => exact ⟨_, rfl⟩
    | int n => exact ⟨_, rfl⟩
    | list xs => exact ⟨_, rfl⟩
    | dict fs => exact ⟨_, rfl⟩

/-- Witness for C6: the token tok123 yields the fixed headers, and None is
rejected with a TypeError. -/
theorem C6_witness :
    api.create_headers (PyVal.str "tok123") = Except.ok
      [("Connection", "keep-alive"),
       ("Accept", "*/*"),
       ("User-Agent", "OhmE/543 CFNetwork/1474 Darwin/23.0.0"),
       ("Accept-Language", "en-GB,en;q=0.9"),
       ("Accept-Encoding", "gzip, deflate, br"),
       ("Authorization", "Firebase " ++ "tok123")] ∧
    (∃ m, api.create_headers PyVal.none =
      Except.error (PyExc.simple ExcKind.typeError m)) :=
  ⟨C6_create_headers_spec.1 "tok123" (by decide),
   C6_create_headers_spec.2 PyVal.none (fun s h => PyVal.noConfusion h)⟩

/-- C7: get_ohme_url joins the configured base URL with /v1/chargeSessions;
for the base http://example.com the result is exactly the example URL; a
missing base raises KeyError and an empty base raises ValueError, both
naming the ohme_api_base key in their message. -/
theorem C7_get_ohme_url_spec :
    (∀ (env : List (String × String)) (base : String),
      lookupKey env "ohme_api_base" = Option.some base → base ≠ "" →
      api.get_ohme_url env = Except.ok (api.urljoin base "/v1/chargeSessions")) ∧
    api.get_ohme_url [("ohme_api_base", "http://example.com")] =
      Except.ok "http://example.com/v1/chargeSessions" ∧
    (∀ env : List (String × String), lookupKey env "ohme_api_base" = Option.none →
      api.get_ohme_url env = Except.error (PyExc.simple ExcKind.keyError
        "ohme_api_base not set in environment")) ∧
    (∀ env : List (String × String), lookupKey env "ohme_api_base" = Option.some "" →
      api.get_ohme_url env = Except.error (PyExc.simple ExcKind.valueError
        "ohme_api_base is empty")) := by
  refine ⟨?_, by rfl, ?_, ?_⟩
  · intro env base hb hne
    have hemp : ¬ base.isEmpty = true := by
      simpa [String.isEmpty_iff] using hne
    simp [api.get_ohme_url, hb, hemp]
  · intro env h
    simp [api.get_ohme_url, h]
  · intro env h
    simp [api.get_ohme_url, h, String.isEmpty_iff]

/-- Witness for C7: the documented example base plus both failure modes. -/
theorem C7_witness :
    api.get_ohme_url [("ohme_api_base", "http://example.com")] =
      Except.ok (api.urljoin "http://example.com" "/v1/chargeSessions") ∧
    api.get_ohme_url [] = Except.error (PyExc.simple ExcKind.keyError
      "ohme_api_base not set in environment") ∧
    api.get_ohme_url [("ohme_api_base", "")] =
      Except.error (PyExc.simple ExcKind.valueError "ohme_api_base is empty") :=
  ⟨C7_get_ohme_url_spec.1 [("ohme_api_base", "http://example.com")]
      "http://example.com" rfl (by decide),
   C7_get_ohme_url_spec.2.2.1 [] rfl,
   C7_get_ohme_url_spec.2.2.2 [("ohme_api_base", "")] rfl⟩

/-- C8: get_firebase_token fails when the response has no JSON body (a null
or absent json field), fails with the token-error exception when any of the
three token fields is absent or falsy, returns exactly the three fields
copied unchanged when all are truthy, and wraps any exception raised by the
transport call with context while chaining the original exception as the
cause. -/
theorem C8_get_firebase_token_spec :
    (∀ response : Record, dictGet response "json" = PyVal.none →
      firebase.get_firebase_token (Except.ok response) =
        Except.error (PyExc.chained ExcKind.generic
          ("An unexpected error occurred: " ++
            ("Error getting firebase token: Invalid JSON: " ++ pyRepr (PyVal.dict response)))
          (PyExc.simple ExcKind.generic
            ("Error getting firebase token: Invalid JSON: " ++ pyRepr (PyVal.dict response))))) ∧
    (∀ (response response_data : Record),
      dictGet response "json" = PyVal.dict response_data →
      (truthy (dictGet response_data "idToken") &&
       truthy (dictGet response_data "expiresIn") &&
       truthy (dictGet response_data "refreshToken")) = false →
      firebase.get_firebase_token (Except.ok response) =
        Except.error (PyExc.chained ExcKind.generic
          ("An unexpected error occurred: " ++
            ("Error getting firebase token: " ++ pyRepr (PyVal.dict response)))
          (PyExc.simple ExcKind.generic
            ("Error getting firebase token: " ++ pyRepr (PyVal.dict response))))) ∧
    (∀ (response response_data : Record),
      dictGet response "json" = PyVal.dict response_data →
      truthy (dictGet response_data "idToken") = true →
      truthy (dictGet response_data "expiresIn") = true →
      truthy (dictGet response_data "refreshToken") = true →
      firebase.get_firebase_token (Except.ok response) = Except.ok
        [("idToken", dictGet response_data "idToken"),
         ("expiresIn", dictGet response_data "expiresIn"),
         ("refreshToken", dictGet response_data "refreshToken")]) ∧
    (∀ e : PyExc, ∃ m : String,
      firebase.get_firebase_token (Except.error e) =
        Except.error (PyExc.chained ExcKind.generic (m ++ e.msg) e)) := by
  refine ⟨?_, ?_, ?_, ?_⟩
  · intro r h
    simp [firebase.get_firebase_token, h]
  · intro r rd hj hfalse
    simp [firebase.get_firebase_token, hj, hfalse]
  · intro r rd hj h1 h2 h3
    simp [firebase.get_firebase_token, hj, h1, h2, h3]
  · intro e
    cases e with
    | simple k m => cases k <;> exact ⟨_, rfl⟩
    | chained k m c => cases k <;> exact ⟨_, rfl⟩

/-- Witness for C8: a response whose json body holds three truthy token
fields is returned with exactly those fields. -/
theorem C8_witness :
    firebase.get_firebase_token (Except.ok [("json", PyVal.dict
      [("idToken", PyVal.str "t"), ("expiresIn", PyVal.str "3600"),
       ("refreshToken", PyVal.str "r")])]) =
    Except.ok [("idToken", dictGet [("idToken", PyVal.str "t"),
        ("expiresIn", PyVal.str "3600"), ("refreshToken", PyVal.str "r")] "idToken"),
      ("expiresIn", dictGet [("idToken", PyVal.str "t"),
        ("expiresIn", PyVal.str "3600"), ("refreshToken", PyVal.str "r")] "expiresIn"),
      ("refreshToken", dictGet [("idToken", PyVal.str "t"),
        ("expiresIn", PyVal.str "3600"), ("refreshToken", PyVal.str "r")] "refreshToken")] :=
  C8_get_firebase_token_spec.2.2.1
    [("json", PyVal.dict [("idToken", PyVal.str "t"), ("expiresIn", PyVal.str "3600"),
      ("refreshToken", PyVal.str "r")])]
    [("idToken", PyVal.str "t"), ("expiresIn", PyVal.str "3600"),
      ("refreshToken", PyVal.str "r")]
    rfl rfl rfl rfl

/-- Counterexample for C9: the truthiness check of get_firebase_token also
accepts non-string and non-integer-parseable field values, so a token whose
idToken is the integer 1 and whose expiresIn is the string abc is returned
successfully, refuting the claim that every returned token has three
non-empty string fields with an integer-parseable expiresIn. -/
theorem C9_counterexample :
    firebase.get_firebase_token (Except.ok [("json", PyVal.dict
      [("idToken", PyVal.int 1), ("expiresIn", PyVal.str "abc"),
       ("refreshToken", PyVal.str "r")])]) =
      Except.ok [("idToken", PyVal.int 1), ("expiresIn", PyVal.str "abc"),
        ("refreshToken", PyVal.str "r")] ∧
    token_fields_wellformed [("idToken", PyVal.int 1), ("expiresIn", PyVal.str "abc"),
      ("refreshToken", PyVal.str "r")] = false :=
  ⟨rfl, rfl⟩

/-- C9 amended: every token returned successfully by get_firebase_token has
all three fields idToken, expiresIn and refreshToken present and truthy
(non-empty when they are strings); the code checks truthiness only, not that
the fields are strings or that expiresIn parses as an integer. -/
theorem C9_amended_token_fields_truthy :
    ∀ (send_result : Except PyExc Record) (tok : Record),
      firebase.get_firebase_token send_result = Except.ok tok →
      truthy (dictGet tok "idToken") = true ∧
      truthy (dictGet tok "expiresIn") = true ∧
      truthy (dictGet tok "refreshToken") = true := by
  intro sr tok h
  cases sr with
  | error e =>
    cases e with
    | simple k m => cases k <;> simp [firebase.get_firebase_token, PyExc.kind] at h
    | chained k m c => cases k <;> simp [firebase.get_firebase_token, PyExc.kind] at h
  | ok response =>
    cases hj : dictGet response "json" with
    | none => simp [firebase.get_firebase_token, hj] at h
    | bool b => simp [firebase.get_firebase_token, hj] at h
    | int n => simp [firebase.get_firebase_token, hj] at h
    | str s => simp [firebase.get_firebase_token, hj] at h
    | list xs => simp [firebase.get_firebase_token, hj] at h
    | dict rd =>
      by_cases hc : (truthy (dictGet rd "idToken") &&
          truthy (dictGet rd "expiresIn") && truthy (dictGet rd "refreshToken")) = true
      · simp only [firebase.get_firebase_token, hj, hc, if_pos] at h
        rw [Bool.and_eq_true, Bool.and_eq_true] at hc
        obtain ⟨⟨hc1, hc2⟩, hc3⟩ := hc
        have htok : tok = [("idToken", dictGet rd "idToken"),
            ("expiresIn", dictGet rd "expiresIn"),
            ("refreshToken", dictGet rd "refreshToken")] := by
          cases h; rfl
        subst htok
        exact ⟨hc1, hc2, hc3⟩
      · simp [firebase.get_firebase_token, hj, hc] at h

/-- Witness for C9 amended: the successfully returned token of the
counterexample response has three truthy fields. -/
theorem C9_witness :
    truthy (dictGet [("idToken", PyVal.int 1), ("expiresIn", PyVal.str "abc"),
      ("refreshToken", PyVal.str "r")] "idToken") = true ∧
    truthy (dictGet [("idToken", PyVal.int 1), ("expiresIn", PyVal.str "abc"),
      ("refreshToken", PyVal.str "r")] "expiresIn") = true ∧
    truthy (dictGet [("idToken", PyVal.int 1), ("expiresIn", PyVal.str "abc"),
      ("refreshToken", PyVal.str "r")] "refreshToken") = true :=
  C9_amended_token_fields_truthy
    (Except.ok [("json", PyVal.dict [("idToken", PyVal.int 1),
      ("expiresIn", PyVal.str "abc"), ("refreshToken", PyVal.str "r")])])
    [("idToken", PyVal.int 1), ("expiresIn", PyVal.str "abc"),
      ("refreshToken", PyVal.str "r")]
    rfl
